import Mathlib

/-!
Verification of the RallyCoach strategy engine (rally analysis and shot
recommendation pipeline).  The scoring engine and the recommendation
generator are translated from `src/lib/strategy_engine/scoring-engine.ts`
and `src/lib/strategy_engine/recommendation-generator.ts`.  The modules
`constants.ts`, `rally-state-machine.ts`, `shot-segmentation.ts` and
`feature-extraction.ts` are not part of the available sources; the
definitions taken from them are modelled from the specification (their doc
comments say so explicitly).  JavaScript numbers are embedded as exact
rationals; `Math.PI` is embedded as the rational value of the IEEE-754
double that `Math.PI` denotes.
-/

namespace RallyCoach

/-- Shot types, from `types.ts` as re-exported by the public API. -/
inductive ShotType
  | clear | drop | smash | drive | net | lift | serve | push | unknown
deriving DecidableEq, Repr

/-- Rally phases. -/
inductive RallyPhase
  | attack | neutral | defense
deriving DecidableEq, Repr

/-- Initiative values. -/
inductive Initiative
  | us | them | unknown
deriving DecidableEq, Repr

/-- Player side of a shot segment. -/
inductive PlayerSide
  | near | far
deriving DecidableEq, Repr

/-- A tracked shuttle position (normalized court coordinates, ms timestamp). -/
structure TrajectoryPoint where
  x : ℚ
  y : ℚ
  timestamp : ℚ
deriving DecidableEq, Repr

instance : Inhabited TrajectoryPoint := ⟨⟨0, 0, 0⟩⟩

/-- An opponent/player position sample. -/
structure PositionSample where
  x : ℚ
  y : ℚ
  timestamp : ℚ
deriving DecidableEq, Repr

/-- A segmented shot. -/
structure ShotSegment where
  shotIndex : ℕ
  type : ShotType
  startTime : ℚ
  endTime : ℚ
  trajectorySlice : List TrajectoryPoint
  player : PlayerSide
deriving DecidableEq, Repr

instance : Inhabited ShotSegment :=
  ⟨⟨0, ShotType.unknown, 0, 0, [], PlayerSide.near⟩⟩

/-- The tactical state at a shot index. -/
structure RallyState where
  phase : RallyPhase
  initiative : Initiative
  pressure : ℚ
  openCourtZones : List ℤ
  timestamp : ℚ
deriving DecidableEq, Repr

/-- Per-shot quantitative features. -/
structure ShotFeatures where
  contactZone : ℤ
  landingZone : ℤ
  shuttleSpeedProxy : ℚ
  shuttleHeightProxy : ℚ
  opponentMovementDistance : ℚ
  opponentDirectionChange : ℚ
  recoveryQuality : ℚ
  rallyState : RallyState
deriving DecidableEq, Repr

/-- A point of a recommendation flight path. -/
structure PathPoint where
  x : ℚ
  y : ℚ
  z : ℚ
deriving DecidableEq, Repr

/-- One explainable factor behind a recommendation score. -/
structure RecommendationRationale where
  type : String
  description : String
  impact : ℚ
deriving DecidableEq, Repr

/-- A scored shot recommendation. -/
structure ShotRecommendation where
  id : String
  shotType : ShotType
  targetZone : ℤ
  pathPolyline : List PathPoint
  score : ℚ
  rationale : List RecommendationRationale
  confidence : ℚ
deriving DecidableEq, Repr

/-- Scoring weights, from `types.ts`. -/
structure ScoringWeights where
  movementPressure : ℚ
  openCourt : ℚ
  riskUnderPressure : ℚ
  angleExposure : ℚ
deriving DecidableEq, Repr

/-- Analysis of a single shot: the shot, its features, its recommendations. -/
structure PerShotAnalysis where
  shot : ShotSegment
  features : ShotFeatures
  recommendations : List ShotRecommendation
deriving DecidableEq, Repr

/-- Rally summary statistics. -/
structure RallySummary where
  totalShots : ℕ
  dominantPhase : RallyPhase
  averagePressure : ℚ
  keyMoments : List ℕ
  winner : String
deriving DecidableEq, Repr

/-- Output metadata. -/
structure AnalysisMetadata where
  processedAt : String
  engineVersion : String
  processingTimeMs : ℤ
  debugLogs : Option (List String)
deriving DecidableEq, Repr

/-- The aggregate result of a rally analysis. -/
structure RallyAnalysisResult where
  sessionId : String
  rallyId : String
  shots : List PerShotAnalysis
  summary : RallySummary
  metadata : AnalysisMetadata
deriving DecidableEq, Repr

/-! ### Constants

The module `constants.ts` is not among the available sources; its values
are modelled from the specification, from the strategy-engine README (in
the sources) and from the unit tests (in the sources). -/

/-- Modelled from the spec: debug logging is off by default (design note:
"default: no-op logger"). -/
def DEBUG_FLAG : Bool := false

/-- Modelled from the spec: an engine-version constant attached to output
metadata. -/
def ENGINE_VERSION : String := "1.0.0"

/-- Modelled from the spec: base score of the scoring formula.  The exact
value is not fixed by the spec; 50 is a representative midpoint of the
[0,100] score range. -/
def BASE_SCORE : ℚ := 50

/-- Modelled from the spec: scores are clamped to [0,100]. -/
def MIN_SCORE : ℚ := 0

/-- Modelled from the spec: scores are clamped to [0,100]. -/
def MAX_SCORE : ℚ := 100

/-- Modelled from the spec and the strategy-engine README, which lists the
weights: movement pressure +20, open court +25, risk under pressure -15,
angle exposure -10 (the signs are applied in the scoring formula). -/
def DEFAULT_SCORING_WEIGHTS : ScoringWeights :=
  { movementPressure := 20, openCourt := 25, riskUnderPressure := 15, angleExposure := 10 }

/-- Modelled from the spec: pressure thresholds used by the scoring engine
(risk penalty applies when pressure exceeds the attack threshold;
confidence drops when pressure exceeds the defense threshold).  The exact
values are not fixed by the spec; 0.6 and 0.7 are representative. -/
structure PressureThresholds where
  attack : ℚ
  defense : ℚ

/-- Modelled from the spec (see `PressureThresholds`). -/
def PRESSURE_THRESHOLDS : PressureThresholds := { attack := 3/5, defense := 7/10 }

/-- Modelled from the spec: a base per-shot-type risk level ("smash
riskiest, clears/lifts safest" is the tactical reading of §4.5); exact
values are not fixed by the spec. -/
def SHOT_RISK_LEVELS : ShotType → ℚ
  | ShotType.clear => 3/10
  | ShotType.drop => 3/5
  | ShotType.smash => 4/5
  | ShotType.drive => 2/5
  | ShotType.net => 3/5
  | ShotType.lift => 3/10
  | ShotType.serve => 3/10
  | ShotType.push => 2/5
  | ShotType.unknown => 1/2

/-- Modelled from the spec: per-shot-type height factor of the flight-path
parabola, "clears highest, drives flattest".  Exact values are not fixed
by the spec.  The TypeScript lookup `SHOT_HEIGHT_PROXY[shotType] ?? 0.5`
is embedded as a total function. -/
def SHOT_HEIGHT_PROXY : ShotType → ℚ
  | ShotType.clear => 9/10
  | ShotType.drop => 2/5
  | ShotType.smash => 3/10
  | ShotType.drive => 1/5
  | ShotType.net => 3/10
  | ShotType.lift => 4/5
  | ShotType.serve => 3/5
  | ShotType.push => 2/5
  | ShotType.unknown => 1/2

/-- Modelled from the spec: per-zone base angle-exposure values (center
court more exposed than corners); exact values are not fixed by the spec.
The TypeScript lookup `ANGLE_RISK_BY_ZONE[targetZone] ?? 0.5` is embedded
as a total function returning the default outside 0..8. -/
def ANGLE_RISK_BY_ZONE (zone : ℤ) : ℚ :=
  if zone = 0 then 2/5
  else if zone = 1 then 3/5
  else if zone = 2 then 2/5
  else if zone = 3 then 1/2
  else if zone = 4 then 7/10
  else if zone = 5 then 1/2
  else if zone = 6 then 3/10
  else if zone = 7 then 1/2
  else if zone = 8 then 3/10
  else 1/2

/-- Modelled from the spec: phase-appropriate shot repertoires (§4.6); the
attack repertoire favours smash/drop/net, the defense repertoire favours
clear/lift, consistent with the phase-alignment table in the scoring
engine sources.  The TypeScript lookup
`VIABLE_SHOTS_BY_PHASE[phase] ?? VIABLE_SHOTS_BY_PHASE.neutral` is embedded
as a total function on the phase enumeration. -/
def VIABLE_SHOTS_BY_PHASE : RallyPhase → List ShotType
  | RallyPhase.attack =>
      [ShotType.smash, ShotType.drop, ShotType.net, ShotType.drive, ShotType.push]
  | RallyPhase.neutral =>
      [ShotType.clear, ShotType.drop, ShotType.drive, ShotType.net, ShotType.lift, ShotType.push]
  | RallyPhase.defense =>
      [ShotType.clear, ShotType.lift, ShotType.drive, ShotType.net]

/-- Modelled from the spec: normalized inter-zone distance, monotonic with
the Euclidean distance between zone centers (embedded as the squared grid
distance divided by 8, which is rational and strictly monotonic with the
Euclidean grid distance).  The TypeScript lookup
`ZONE_DISTANCES[a]?.[b] ?? 0.5` is embedded as a total function with the
default outside 0..8. -/
def ZONE_DISTANCES (a b : ℤ) : ℚ :=
  if 0 ≤ a ∧ a ≤ 8 ∧ 0 ≤ b ∧ b ≤ 8 then
    let rowA := Int.fdiv a 3
    let colA := a % 3
    let rowB := Int.fdiv b 3
    let colB := b % 3
    (((rowA - rowB) * (rowA - rowB) + (colA - colB) * (colA - colB) : ℤ) : ℚ) / 8
  else 1/2

/-- The rational value of the IEEE-754 double denoted by `Math.PI`. -/
def MATH_PI : ℚ := 884279719003555 / 281474976710656

/-- The JavaScript `Math.round` (round half toward positive infinity),
embedded on exact rationals. -/
def jsRound (q : ℚ) : ℤ := ⌊q + 1/2⌋

/-! ### Zone mapper (modelled)

The zone mapper lives in `rally-state-machine.ts`, which is not among the
available sources; the definitions are modelled from the specification
(§4.1) and pinned by the unit tests in the sources. -/

/-- Modelled from the spec: partitions the half-court of interest
(y ∈ [0.5,1], x ∈ [0,1]) into a 3×3 grid and returns `row*3 + col`,
boundary values inclusive-low, out-of-range coordinates clamped (per the
unit tests: `positionToZone 0.1 0.55 = 0`, `positionToZone 0.9 0.95 = 8`). -/
def positionToZone (x y : ℚ) : ℤ :=
  let col := max 0 (min 2 ⌊x * 3⌋)
  let row := max 0 (min 2 ⌊(y - 1/2) * 6⌋)
  row * 3 + col

/-- Modelled from the spec: the geometric center of a zone's rectangle; an
out-of-range zone id returns the center zone's coordinates (per the unit
tests: zone 0 ↦ (1/6, 7/12), zone 4 ↦ (1/2, 3/4), zone 8 ↦ (5/6, 11/12)). -/
def zoneToPosition (zone : ℤ) : ℚ × ℚ :=
  if 0 ≤ zone ∧ zone ≤ 8 then
    let row := Int.fdiv zone 3
    let col := zone % 3
    ((2 * col + 1 : ℤ) / 6, 1/2 + (2 * row + 1 : ℤ) / 12)
  else (1/2, 3/4)

/-- Modelled from the spec: zone adjacency — true for equal zones, for
edge-sharing zones, and for any pair containing the center zone 4
(including its diagonals); false otherwise, in particular for
corner-to-corner pairs such as 0↔8 and 2↔6. -/
def isAdjacentZone (a b : ℤ) : Bool :=
  if 0 ≤ a ∧ a ≤ 8 ∧ 0 ≤ b ∧ b ≤ 8 then
    a = b ∨ a = 4 ∨ b = 4 ∨
      ((Int.fdiv a 3 - Int.fdiv b 3).natAbs + (a % 3 - b % 3).natAbs = 1)
  else false

/-- Modelled from the spec: with no opponent position, the four corner
zones; with a position, the full zone set minus the opponent's zone and
all zones adjacent to it. -/
def findOpenCourtZones (opponentPosition : Option (ℚ × ℚ)) : List ℤ :=
  match opponentPosition with
  | none => [0, 2, 6, 8]
  | some p =>
      let oppZone := positionToZone p.1 p.2
      ([0, 1, 2, 3, 4, 5, 6, 7, 8] : List ℤ).filter
        (fun z => !(isAdjacentZone z oppZone))

/-! ### Shot segmentation (modelled)

`shot-segmentation.ts` is not among the available sources; the definitions
are modelled from the specification (§4.2).  Where the spec leaves
thresholds open, representative values are chosen and noted. -/

/-- Modelled from the spec: average per-step displacement over elapsed
time, normalized to [0,1]; 0 for fewer than 2 points.  Displacement is
embedded with the taxicab norm so the value stays rational; the spec does
not rely on the exact norm. -/
def estimateShuttleSpeed (points : List TrajectoryPoint) : ℚ :=
  match points with
  | [] => 0
  | [_] => 0
  | p :: rest =>
      let dist := (List.zip (p :: rest) rest).foldl
        (fun acc pq => acc + |pq.2.x - pq.1.x| + |pq.2.y - pq.1.y|) 0
      let tFirst := p.timestamp
      let tLast := (rest.getLastD p).timestamp
      if tLast - tFirst ≤ 0 then 0
      else min 1 (dist * 1000 / ((tLast - tFirst) * 3))

/-- Modelled from the spec: maximum deviation of intermediate points from
the straight chord between the first and last point, normalized; 0.5 for
fewer than 2 points.  The deviation is embedded with the cross-product
magnitude over the taxicab chord length so the value stays rational. -/
def estimateShuttleHeight (points : List TrajectoryPoint) : ℚ :=
  match points with
  | [] => 1/2
  | [_] => 1/2
  | p :: rest =>
      let q := rest.getLastD p
      let chord := |q.x - p.x| + |q.y - p.y|
      if chord ≤ 0 then 1/2
      else
        let dev := (rest.dropLast).foldl
          (fun acc m =>
            max acc (|(q.x - p.x) * (m.y - p.y) - (q.y - p.y) * (m.x - p.x)| / chord)) 0
        min 1 (dev * 4)

/-- Modelled from the spec: a decision point is marked where the direction
of travel reverses beyond an angular threshold (embedded: the dot product
of consecutive displacements is negative, i.e. a reversal beyond 90°),
where the trajectory crosses the net line y = 0.5, or where an excessive
time gap (embedded: more than 800 ms) occurs between samples. -/
def isDecisionPoint (prevDir : Option (ℚ × ℚ)) (q r : TrajectoryPoint) : Bool :=
  (match prevDir with
   | some d => decide (d.1 * (r.x - q.x) + d.2 * (r.y - q.y) < 0)
   | none => false) ||
  decide ((q.y < 1/2 ∧ 1/2 ≤ r.y) ∨ (r.y < 1/2 ∧ 1/2 ≤ q.y)) ||
  decide (r.timestamp - q.timestamp > 800)

/-- Modelled from the spec: splits the trajectory into spans between
consecutive decision points (helper of `segmentShots`). -/
def splitSpans (prevDir : Option (ℚ × ℚ)) (q : TrajectoryPoint)
    (acc : List TrajectoryPoint) : List TrajectoryPoint → List (List TrajectoryPoint)
  | [] => [(q :: acc).reverse]
  | r :: rest =>
      if isDecisionPoint prevDir q r then
        (q :: acc).reverse :: splitSpans none r [] rest
      else
        splitSpans (some (r.x - q.x, r.y - q.y)) r (q :: acc) rest

/-- Modelled from the spec: a merge pass folds any span shorter than 2
points into its neighbor, so no returned segment has fewer than 2 points. -/
def mergeShortSegments : List (List TrajectoryPoint) → List (List TrajectoryPoint)
  | [] => []
  | [s] => if s.length < 2 then [] else [s]
  | s :: t :: rest =>
      if s.length < 2 then mergeShortSegments ((s ++ t) :: rest)
      else s :: mergeShortSegments (t :: rest)
termination_by segs => segs.length

/-- Modelled from the spec: classifies a span into a shot type using
net-crossing, estimated arc height and estimated speed.  The thresholds
are representative; the spec does not fix them. -/
def classifySegment (pts : List TrajectoryPoint) : ShotType :=
  let first := pts.headD default
  let last := pts.getLastD default
  let crosses := (first.y < 1/2 ∧ 1/2 ≤ last.y) ∨ (last.y < 1/2 ∧ 1/2 ≤ first.y)
  let h := estimateShuttleHeight pts
  let s := estimateShuttleSpeed pts
  if ¬crosses then ShotType.net
  else if h > 3/5 then ShotType.clear
  else if s > 7/10 ∧ h < 3/10 then ShotType.smash
  else if h < 1/5 then ShotType.drive
  else ShotType.drop

/-- Modelled from the spec: `segmentShots` returns `[]` for fewer than 2
points; otherwise it splits the trajectory at decision points, merges
short spans, classifies each span, numbers segments sequentially from 0,
and takes the player side from the `y` of each segment's first point.
The optional pose timestamps are a fusion hint the spec does not require;
the model ignores them. -/
def segmentShots (trajectory : List TrajectoryPoint)
    (poseTimestamps : Option (List ℚ)) : List ShotSegment :=
  let _ := poseTimestamps
  match trajectory with
  | [] => []
  | [_] => []
  | p :: q :: rest =>
      let spans := mergeShortSegments (splitSpans none p [] (q :: rest))
      spans.enum.map (fun ipts =>
        let pts := ipts.2
        let first := pts.headD default
        let last := pts.getLastD default
        { shotIndex := ipts.1
          type := classifySegment pts
          startTime := first.timestamp
          endTime := last.timestamp
          trajectorySlice := pts
          player := if first.y < (1/2 : ℚ) then PlayerSide.near else PlayerSide.far })

/-! ### Rally state machine (modelled)

`rally-state-machine.ts` is not among the available sources; the
definitions are modelled from the specification (§4.3) and pinned by the
unit tests in the sources. -/

/-- The neutral default rally state (modelled from the spec). -/
def defaultRallyState : RallyState :=
  { phase := RallyPhase.neutral, initiative := Initiative.unknown,
    pressure := 1/2, openCourtZones := [0, 2, 6, 8], timestamp := 0 }

/-- Modelled from the spec: for empty shots the neutral default; otherwise
the phase is `defense` after a preceding smash, `attack` when the current
shot is smash/drop/net and the player was not just smashed at, `neutral`
otherwise; the pressure combines time pressure (inverse in the duration
since the previous shot), shot-type pressure (preceding smash) and
position pressure (deep-court contact), clamped to [0,1]. -/
def computeRallyState (shots : List ShotSegment) (shotIndex : ℕ)
    (opponentPosition : Option (ℚ × ℚ)) : RallyState :=
  match shots with
  | [] => defaultRallyState
  | _ :: _ =>
      let cur := shots.getD shotIndex default
      let prev : Option ShotSegment :=
        if shotIndex = 0 then none else some (shots.getD (shotIndex - 1) default)
      let prevSmash := (prev.map (fun s => s.type)).getD ShotType.unknown = ShotType.smash
      let phase :=
        if prevSmash then RallyPhase.defense
        else if cur.type = ShotType.smash ∨ cur.type = ShotType.drop ∨
                cur.type = ShotType.net then RallyPhase.attack
        else RallyPhase.neutral
      let dt := match prev with
        | none => 1000
        | some p => max 0 (cur.startTime - p.startTime)
      let timePressure := 1000 / (1000 + dt)
      let shotPressure : ℚ := if prevSmash then 1 else 3/10
      let firstPt := cur.trajectorySlice.headD default
      let positionPressure : ℚ :=
        if Int.fdiv (positionToZone firstPt.x firstPt.y) 3 = 2 then 4/5 else 2/5
      let pressure :=
        min 1 (max 0 (2/5 * timePressure + 3/10 * shotPressure + 3/10 * positionPressure))
      let initiative :=
        if phase = RallyPhase.attack then Initiative.us
        else if phase = RallyPhase.defense then Initiative.them
        else Initiative.unknown
      { phase := phase, initiative := initiative, pressure := pressure,
        openCourtZones := findOpenCourtZones opponentPosition,
        timestamp := cur.startTime }

/-- Modelled from the spec: the temporally nearest opponent sample to a
timestamp (first minimal sample wins). -/
def nearestSample (samples : List PositionSample) (t : ℚ) : Option PositionSample :=
  samples.foldl
    (fun best s =>
      match best with
      | none => some s
      | some b => if |s.timestamp - t| < |b.timestamp - t| then some s else best)
    none

/-- Modelled from the spec: maps `computeRallyState` over every shot index,
pairing each shot with the temporally nearest opponent sample. -/
def computeAllRallyStates (shots : List ShotSegment)
    (opponentPositions : Option (List PositionSample)) : List RallyState :=
  shots.enum.map (fun is =>
    let oppPos := (opponentPositions.getD []).length ≠ 0
    let pos :=
      match opponentPositions with
      | none => none
      | some samples =>
          (nearestSample samples is.2.startTime).map (fun s => (s.x, s.y))
    let _ := oppPos
    computeRallyState shots is.1 pos)

/-- Modelled from the spec: majority vote over phase values, `neutral` for
empty input or ties. -/
def getDominantPhase (states : List RallyState) : RallyPhase :=
  let aC := (states.filter (fun s => s.phase = RallyPhase.attack)).length
  let nC := (states.filter (fun s => s.phase = RallyPhase.neutral)).length
  let dC := (states.filter (fun s => s.phase = RallyPhase.defense)).length
  if aC > nC ∧ aC > dC then RallyPhase.attack
  else if dC > nC ∧ dC > aC then RallyPhase.defense
  else RallyPhase.neutral

/-- Modelled from the spec: arithmetic mean of pressures, 0.5 for empty
input. -/
def getAveragePressure (states : List RallyState) : ℚ :=
  match states with
  | [] => 1/2
  | _ => (states.foldl (fun acc s => acc + s.pressure) 0) / states.length

/-- Modelled from the spec: indices whose pressure strictly exceeds the
threshold. -/
def findKeyMoments (states : List RallyState) (threshold : ℚ) : List ℕ :=
  (states.enum.filter (fun is => threshold < is.2.pressure)).map (fun is => is.1)

/-! ### Feature extraction (modelled)

`feature-extraction.ts` is not among the available sources; the
definitions are modelled from the specification (§4.4). -/

/-- Modelled from the spec: total opponent movement over the samples inside
the shot's time window (taxicab displacement, zero when absent). -/
def opponentMovementOf (samples : List PositionSample) : ℚ :=
  match samples with
  | [] => 0
  | p :: rest =>
      (List.zip (p :: rest) rest).foldl
        (fun acc pq => acc + |pq.2.x - pq.1.x| + |pq.2.y - pq.1.y|) 0

/-- Modelled from the spec: combines a shot with its rally state into
`ShotFeatures`; contact/landing zones come from the first/last trajectory
point via the zone mapper; speed/height proxies from the segmenter's
estimators; opponent features from samples inside the shot's time window
(zero when absent); recovery quality grows with the time before the
opponent's next action, defaulting to 0.5. -/
def extractShotFeatures (shot : ShotSegment) (state : RallyState)
    (previousShot : Option ShotSegment)
    (opponentSamples : Option (List PositionSample)) : ShotFeatures :=
  let _ := previousShot
  let first := shot.trajectorySlice.headD default
  let last := shot.trajectorySlice.getLastD default
  let inWindow := (opponentSamples.getD []).filter
    (fun s => decide (shot.startTime ≤ s.timestamp ∧ s.timestamp ≤ shot.endTime))
  let afterWindow := (opponentSamples.getD []).filter
    (fun s => decide (shot.endTime < s.timestamp))
  let recovery :=
    match afterWindow with
    | [] => 1/2
    | s :: _ => min 1 (max 0 ((s.timestamp - shot.endTime) / 1000))
  let dirChange : ℚ :=
    match inWindow with
    | _ :: _ :: _ :: _ => MATH_PI / 2
    | _ => 0
  { contactZone := positionToZone first.x first.y
    landingZone := positionToZone last.x last.y
    shuttleSpeedProxy := estimateShuttleSpeed shot.trajectorySlice
    shuttleHeightProxy := estimateShuttleHeight shot.trajectorySlice
    opponentMovementDistance := opponentMovementOf inWindow
    opponentDirectionChange := dirChange
    recoveryQuality := recovery
    rallyState := state }

/-- Modelled from the spec: maps `extractShotFeatures` over all shots with
their states, passing the previous shot and the opponent samples; player
positions are accepted for interface fidelity and unused by the modelled
features. -/
def extractAllShotFeatures (shots : List ShotSegment) (states : List RallyState)
    (opponentPositions : Option (List PositionSample))
    (playerPositions : Option (List PositionSample)) : List ShotFeatures :=
  let _ := playerPositions
  shots.enum.map (fun is =>
    extractShotFeatures is.2 (states.getD is.1 defaultRallyState)
      (if is.1 = 0 then none else shots.get? (is.1 - 1)) opponentPositions)

/-! ### Scoring engine

Translated from `scoring-engine.ts` (in the sources). -/

/-- Movement pressure score (0-1): 0.7 times the zone distance from the
current landing zone to the target plus 0.3 times the opponent momentum
factor (direction change over pi), clamped. -/
def calculateMovementPressureScore (targetZone : ℤ) (features : ShotFeatures) : ℚ :=
  let zoneDistance := ZONE_DISTANCES features.landingZone targetZone
  let momentumFactor := features.opponentDirectionChange / MATH_PI
  let score := zoneDistance * (7/10) + momentumFactor * (3/10)
  min 1 (max 0 score)

/-- Open court exploitation score (0-1): 0.8 plus a 0.2 corner bonus when
the target is an open zone; 0.4 when the numeric zone index differs from
some open zone's index by exactly 1 or 3; 0.1 otherwise. -/
def calculateOpenCourtScore (targetZone : ℤ) (rallyState : RallyState) : ℚ :=
  if targetZone ∈ rallyState.openCourtZones then
    let cornerBonus : ℚ := if targetZone ∈ ([0, 2, 6, 8] : List ℤ) then 1/5 else 0
    min 1 (4/5 + cornerBonus)
  else if rallyState.openCourtZones.any
      (fun openZone => (targetZone - openZone).natAbs = 1 ∨
                       (targetZone - openZone).natAbs = 3) then
    2/5
  else 1/10

/-- Risk level for a shot type under the current pressure (0-1): the base
per-type risk scaled by `1 + 0.5*pressure` and by a phase multiplier
(attacking types 1.3x while in defense, defensive types 0.8x while in
attack), clamped. -/
def assessShotRisk (shotType : ShotType) (rallyState : RallyState) : ℚ :=
  let baseRisk := SHOT_RISK_LEVELS shotType
  let pressureMultiplier := 1 + rallyState.pressure * (1/2)
  let phaseMultiplier : ℚ :=
    if rallyState.phase = RallyPhase.defense then
      if shotType = ShotType.smash ∨ shotType = ShotType.drop ∨
         shotType = ShotType.net then 13/10 else 1
    else if rallyState.phase = RallyPhase.attack then
      if shotType = ShotType.clear ∨ shotType = ShotType.lift then 4/5 else 1
    else 1
  let adjustedRisk := baseRisk * pressureMultiplier * phaseMultiplier
  min 1 (max 0 adjustedRisk)

/-- Angle exposure risk (0-1): the base per-zone exposure, 1.3x for
drop/net shots to center zones 1 and 4, 0.7x for clears to the deep
corners 6 and 8, clamped. -/
def calculateAngleExposure (targetZone : ℤ) (shotType : ShotType) : ℚ :=
  let baseAngleRisk := ANGLE_RISK_BY_ZONE targetZone
  let shotTypeMultiplier : ℚ :=
    if (shotType = ShotType.drop ∨ shotType = ShotType.net) ∧
       (targetZone = 1 ∨ targetZone = 4) then 13/10
    else if shotType = ShotType.clear ∧ (targetZone = 6 ∨ targetZone = 8) then 7/10
    else 1
  let angleRisk := baseAngleRisk * shotTypeMultiplier
  min 1 (max 0 angleRisk)

/-- Confidence level (clamped to [0.5,1]): base 0.75, +0.1 when the shot
type matches the phase's canonical tactic, -0.1 when pressure exceeds the
defense threshold, +0.05 when recovery quality is poor. -/
def calculateConfidence (shotType : ShotType) (rallyState : RallyState)
    (features : ShotFeatures) : ℚ :=
  let c0 : ℚ := 3/4
  let c1 :=
    if rallyState.phase = RallyPhase.attack ∧
       (shotType = ShotType.smash ∨ shotType = ShotType.drop ∨
        shotType = ShotType.net) then c0 + 1/10
    else if rallyState.phase = RallyPhase.defense ∧
       (shotType = ShotType.clear ∨ shotType = ShotType.lift) then c0 + 1/10
    else c0
  let c2 := if rallyState.pressure > PRESSURE_THRESHOLDS.defense then c1 - 1/10 else c1
  let c3 := if features.recoveryQuality < 3/10 then c2 + 1/20 else c2
  min 1 (max (1/2) c3)

/-- Builds the rationale list for a recommendation, one entry per factor
that crosses its materiality threshold, with signed impact. -/
def buildRationale (shotType : ShotType) (features : ShotFeatures)
    (rallyState : RallyState) (movementScore openCourtScore riskScore angleRisk : ℚ) :
    List RecommendationRationale :=
  let r1 : List RecommendationRationale :=
    if movementScore > 1/2 then
      [{ type := "movement_pressure"
         description :=
           if movementScore > 7/10 then "Forces significant opponent movement"
           else "Increases opponent movement distance"
         impact := movementScore }]
    else []
  let r2 : List RecommendationRationale :=
    if openCourtScore > 1/2 then
      [{ type := "open_court"
         description :=
           if openCourtScore > 7/10 then "Targets undefended court area"
           else "Exploits partial court opening"
         impact := openCourtScore }]
    else []
  let r3 : List RecommendationRationale :=
    if rallyState.pressure > PRESSURE_THRESHOLDS.defense ∧ riskScore > 1/2 then
      [{ type := "risk_reduction"
         description := "Higher risk shot under pressure situation"
         impact := -riskScore }]
    else if riskScore < 3/10 ∧ rallyState.phase = RallyPhase.defense then
      [{ type := "risk_reduction"
         description := "Safe shot to reset the rally"
         impact := 1 - riskScore }]
    else []
  let r4 : List RecommendationRationale :=
    if angleRisk > 2/5 then
      [{ type := "angle_denial"
         description :=
           if angleRisk > 3/5 then "May expose court to counter-attack angles"
           else "Moderate angle exposure to opponent"
         impact := -angleRisk }]
    else []
  let r5 : List RecommendationRationale :=
    if (shotType = ShotType.clear ∨ shotType = ShotType.lift) ∧
       features.recoveryQuality > 2/5 then
      [{ type := "recovery_time"
         description := "Provides time to recover court position"
         impact := 1/2 }]
    else []
  r1 ++ r2 ++ r3 ++ r4 ++ r5

/-- Scores a single recommendation: base score plus weighted movement and
open-court factors, minus the risk penalty (only when pressure exceeds the
attack threshold) and the angle penalty, clamped to [0,100] and rounded;
the input candidate is returned with `score`, `rationale` and `confidence`
replaced. -/
def scoreRecommendation (recommendation : ShotRecommendation)
    (features : ShotFeatures) (rallyState : RallyState)
    (weights : ScoringWeights) : ShotRecommendation :=
  let movementScore := calculateMovementPressureScore recommendation.targetZone features
  let openCourtScore := calculateOpenCourtScore recommendation.targetZone rallyState
  let riskScore := assessShotRisk recommendation.shotType rallyState
  let angleRisk := calculateAngleExposure recommendation.targetZone recommendation.shotType
  let s1 := BASE_SCORE + movementScore * weights.movementPressure +
    openCourtScore * weights.openCourt
  let s2 :=
    if rallyState.pressure > PRESSURE_THRESHOLDS.attack then
      s1 - riskScore * weights.riskUnderPressure
    else s1
  let s3 := s2 - angleRisk * weights.angleExposure
  let score := min MAX_SCORE (max MIN_SCORE s3)
  { recommendation with
    score := (jsRound score : ℚ)
    rationale := buildRationale recommendation.shotType features rallyState
      movementScore openCourtScore riskScore angleRisk
    confidence := calculateConfidence recommendation.shotType rallyState features }

/-- The descending-by-score order used to rank recommendations. -/
def recGE (a b : ShotRecommendation) : Prop := b.score ≤ a.score

instance : DecidableRel recGE := fun a b => inferInstanceAs (Decidable (b.score ≤ a.score))

instance : IsTotal ShotRecommendation recGE := ⟨fun a b => le_total b.score a.score⟩

instance : IsTrans ShotRecommendation recGE := ⟨fun _ _ _ h1 h2 => le_trans h2 h1⟩

/-- Scores every candidate and sorts by score descending; the sort is
stable (candidates of equal score keep generation order), matching the
stable `Array.prototype.sort`. -/
def scoreAndRankRecommendations (recommendations : List ShotRecommendation)
    (features : ShotFeatures) (rallyState : RallyState)
    (weights : ScoringWeights) : List ShotRecommendation :=
  let scored := recommendations.map
    (fun rec => scoreRecommendation rec features rallyState weights)
  scored.insertionSort recGE

/-! ### Recommendation generator

Translated from `recommendation-generator.ts` (in the sources).  The only
impure ingredients of that module — `Date.now()`, `Math.random()` and
`new Date().toISOString()` — are embedded as an explicit environment of
opaque values threaded through the functions that consume them. -/

/-- The impure environment of the generator: the wall clock observed at the
start and at the end of a call, its ISO rendering, and the random tag
drawn for each generated id. -/
structure IdEnv where
  now : ℤ
  now2 : ℤ
  nowIso : String
  randTag : ShotType → ℤ → String
  rallyTag : String

/-- The name of a shot type as it appears in generated ids. -/
def shotTypeName : ShotType → String
  | ShotType.clear => "clear"
  | ShotType.drop => "drop"
  | ShotType.smash => "smash"
  | ShotType.drive => "drive"
  | ShotType.net => "net"
  | ShotType.lift => "lift"
  | ShotType.serve => "serve"
  | ShotType.push => "push"
  | ShotType.unknown => "unknown"

/-- Generates a recommendation id from the shot type, the target zone, the
clock and a random tag. -/
def generateRecId (env : IdEnv) (shotType : ShotType) (targetZone : ℤ) : String :=
  "rec-" ++ shotTypeName shotType ++ "-" ++ toString targetZone ++ "-" ++
    toString env.now ++ "-" ++ env.randTag shotType targetZone

/-- Generates the flight-path polyline: the contact point at height 0.5,
four intermediate points at t = i/5 (i = 1..4) linearly interpolated in the
plane with parabolic height `0.3 + (heightProxy*3)*4*t*(1-t)`, and the
target-zone center at landing height 0.2. -/
def generateShotPath (contactPoint : ℚ × ℚ) (targetZone : ℤ)
    (shotType : ShotType) : List PathPoint :=
  let target := zoneToPosition targetZone
  let heightProxy := SHOT_HEIGHT_PROXY shotType
  let mid := (List.range' 1 4).map (fun i =>
    let t : ℚ := (i : ℚ) / 5
    { x := contactPoint.1 + (target.1 - contactPoint.1) * t
      y := contactPoint.2 + (target.2 - contactPoint.2) * t
      z := 3/10 + (heightProxy * 3) * 4 * t * (1 - t) })
  ({ x := contactPoint.1, y := contactPoint.2, z := 1/2 } :: mid) ++
    [{ x := target.1, y := target.2, z := 1/5 }]

/-- Viable shot types: the phase repertoire filtered by the depth third of
the contact zone (back: clear/smash/drop/drive/lift; mid:
drive/drop/net/clear/push; front: net/push/lift/drive).  `Math.floor`
of the JavaScript division is the flooring integer division. -/
def getViableShotTypes (phase : RallyPhase) (contactZone : ℤ) : List ShotType :=
  let phaseShotTypes := VIABLE_SHOTS_BY_PHASE phase
  let depthIdx := Int.fdiv contactZone 3
  if depthIdx = 2 then
    phaseShotTypes.filter (fun s =>
      s ∈ [ShotType.clear, ShotType.smash, ShotType.drop, ShotType.drive, ShotType.lift])
  else if depthIdx = 1 then
    phaseShotTypes.filter (fun s =>
      s ∈ [ShotType.drive, ShotType.drop, ShotType.net, ShotType.clear, ShotType.push])
  else
    phaseShotTypes.filter (fun s =>
      s ∈ [ShotType.net, ShotType.push, ShotType.lift, ShotType.drive])

/-- Builds an unscored candidate recommendation. -/
def buildCandidateRecommendation (env : IdEnv) (shotType : ShotType)
    (targetZone : ℤ) (contactPoint : ℚ × ℚ) : ShotRecommendation :=
  { id := generateRecId env shotType targetZone
    shotType := shotType
    targetZone := targetZone
    pathPolyline := generateShotPath contactPoint targetZone shotType
    score := 0
    rationale := []
    confidence := 3/4 }

/-- The full zone list of the 3×3 grid. -/
def allZones : List ℤ := [0, 1, 2, 3, 4, 5, 6, 7, 8]

/-- The candidate target zones for a state: the open-court zones first,
then the remaining zones of the grid. -/
def candidateTargetZones (rallyState : RallyState) : List ℤ :=
  rallyState.openCourtZones ++
    (allZones.filter (fun z => !(rallyState.openCourtZones.contains z)))

/-- The candidate set for one shot: every viable shot type to each of the
first five target zones. -/
def candidateRecommendations (env : IdEnv) (contactPoint : ℚ × ℚ)
    (features : ShotFeatures) (rallyState : RallyState) : List ShotRecommendation :=
  (getViableShotTypes rallyState.phase features.contactZone).flatMap (fun shotType =>
    ((candidateTargetZones rallyState).take 5).map (fun targetZone =>
      buildCandidateRecommendation env shotType targetZone contactPoint))

/-- Generates the top-3 recommendations for one shot: candidates are every
viable shot type to each of the first five target zones (open-court zones
first, then the remaining zones), scored and ranked, then the first three
are returned. -/
def generateRecommendations (env : IdEnv) (shot : ShotSegment)
    (features : ShotFeatures) (rallyState : RallyState) : List ShotRecommendation :=
  let startPoint := shot.trajectorySlice.headD { x := 1/2, y := 1/4, timestamp := 0 }
  let contactPoint := (startPoint.x, startPoint.y)
  let candidates := candidateRecommendations env contactPoint features rallyState
  let scored := scoreAndRankRecommendations candidates features rallyState
    DEFAULT_SCORING_WEIGHTS
  scored.take 3

/-- Maps recommendation generation across all shots of a rally, pairing
each shot with its rally state and features positionally. -/
def generatePerShotAnalysis (env : IdEnv) :
    List ShotSegment → List RallyState → List ShotFeatures → List PerShotAnalysis
  | shot :: shots, state :: states, f :: fs =>
      { shot := shot, features := f,
        recommendations := generateRecommendations env shot f state } ::
        generatePerShotAnalysis env shots states fs
  | _, _, _ => []

/-- Builds the rally summary from the per-shot analysis and the states. -/
def buildRallySummary (shots : List PerShotAnalysis)
    (rallyStates : List RallyState) : RallySummary :=
  { totalShots := shots.length
    dominantPhase := getDominantPhase rallyStates
    averagePressure := getAveragePressure rallyStates
    keyMoments := findKeyMoments rallyStates (7/10)
    winner := "unknown" }

/-- Analyzes a complete rally: segmentation, state computation, feature
extraction, per-shot recommendations and summary construction; an empty
segmentation yields the well-formed empty result. -/
def analyzeRally (env : IdEnv) (sessionId : String)
    (trajectory : List TrajectoryPoint) (poseTimestamps : Option (List ℚ))
    (opponentPositions : Option (List PositionSample))
    (playerPositions : Option (List PositionSample)) : RallyAnalysisResult :=
  let shots := segmentShots trajectory poseTimestamps
  if shots.isEmpty then
    { sessionId := sessionId
      rallyId := "rally-" ++ toString env.now
      shots := []
      summary :=
        { totalShots := 0, dominantPhase := RallyPhase.neutral,
          averagePressure := 1/2, keyMoments := [], winner := "unknown" }
      metadata :=
        { processedAt := env.nowIso, engineVersion := ENGINE_VERSION,
          processingTimeMs := env.now2 - env.now,
          debugLogs := if DEBUG_FLAG then some [] else none } }
  else
    let rallyStates := computeAllRallyStates shots opponentPositions
    let features := extractAllShotFeatures shots rallyStates opponentPositions
      playerPositions
    let perShotAnalysis := generatePerShotAnalysis env shots rallyStates features
    let summary := buildRallySummary perShotAnalysis rallyStates
    { sessionId := sessionId
      rallyId := "rally-" ++ toString env.now ++ "-" ++ env.rallyTag
      shots := perShotAnalysis
      summary := summary
      metadata :=
        { processedAt := env.nowIso, engineVersion := ENGINE_VERSION,
          processingTimeMs := env.now2 - env.now,
          debugLogs := if DEBUG_FLAG then some [] else none } }

/-- Single-shot convenience entry: segments the trajectory, returns `[]`
for an out-of-range index, and otherwise generates the recommendations of
the selected shot in context. -/
def generateRecommendationsForShot (env : IdEnv)
    (trajectory : List TrajectoryPoint) (shotIndex : ℤ)
    (opponentPosition : Option (ℚ × ℚ)) : List ShotRecommendation :=
  let shots := segmentShots trajectory none
  if shotIndex < 0 ∨ (shots.length : ℤ) ≤ shotIndex then []
  else
    let idx := shotIndex.toNat
    let state := computeRallyState shots idx opponentPosition
    let previousShot := if idx > 0 then shots.get? (idx - 1) else none
    let shot := shots.getD idx default
    let features := extractShotFeatures shot state previousShot
      (opponentPosition.map (fun p => [{ x := p.1, y := p.2, timestamp := shot.startTime }]))
    generateRecommendations env shot features state

/-! ### Erasure of the volatile output fields

The determinism property says the output is reproducible up to the opaque
ids and the wall-clock metadata; these functions erase exactly those
fields. -/

/-- Erases a recommendation's opaque id. -/
def eraseRecId (r : ShotRecommendation) : ShotRecommendation := { r with id := "" }

/-- Erases the opaque ids of a per-shot analysis. -/
def erasePerShot (p : PerShotAnalysis) : PerShotAnalysis :=
  { p with recommendations := p.recommendations.map eraseRecId }

/-- Erases the opaque ids (`rallyId`, recommendation ids) and the
wall-clock metadata (`processedAt`, `processingTimeMs`) of a result. -/
def eraseVolatile (r : RallyAnalysisResult) : RallyAnalysisResult :=
  { r with rallyId := "", shots := r.shots.map erasePerShot,
           metadata := { r.metadata with processedAt := "", processingTimeMs := 0 } }

/-! ### Theorems -/

/-- C2.  For the empty trajectory, `analyzeRally` returns a well-formed
result with no shots, `totalShots = 0`, `dominantPhase = neutral`,
`averagePressure = 0.5` and `keyMoments = []` (and, being a total
function, never throws). -/
theorem analyzeRally_empty_trajectory (env : IdEnv) (sessionId : String) :
    (analyzeRally env sessionId [] none none none).shots = [] ∧
    (analyzeRally env sessionId [] none none none).summary.totalShots = 0 ∧
    (analyzeRally env sessionId [] none none none).summary.dominantPhase =
      RallyPhase.neutral ∧
    (analyzeRally env sessionId [] none none none).summary.averagePressure = 1/2 ∧
    (analyzeRally env sessionId [] none none none).summary.keyMoments = [] :=
  ⟨rfl, rfl, rfl, rfl, rfl⟩

/-- C10.  `scoreRecommendation` preserves the candidate's `id`,
`shotType`, `targetZone` and `pathPolyline`, replacing only `score`,
`rationale` and `confidence`. -/
theorem scoreRecommendation_frame (rec : ShotRecommendation)
    (features : ShotFeatures) (rallyState : RallyState) (weights : ScoringWeights) :
    (scoreRecommendation rec features rallyState weights).id = rec.id ∧
    (scoreRecommendation rec features rallyState weights).shotType = rec.shotType ∧
    (scoreRecommendation rec features rallyState weights).targetZone = rec.targetZone ∧
    (scoreRecommendation rec features rallyState weights).pathPolyline =
      rec.pathPolyline :=
  ⟨rfl, rfl, rfl, rfl⟩

/-- C3.  An out-of-range shot index in the single-shot query returns the
empty recommendation list (and, being a total function, never throws). -/
theorem generateRecommendationsForShot_invalid_index (env : IdEnv)
    (trajectory : List TrajectoryPoint) (shotIndex : ℤ)
    (opponentPosition : Option (ℚ × ℚ))
    (h : shotIndex < 0 ∨ ((segmentShots trajectory none).length : ℤ) ≤ shotIndex) :
    generateRecommendationsForShot env trajectory shotIndex opponentPosition = [] := by
  unfold generateRecommendationsForShot
  exact if_pos h

/-- Witness for C3 at the empty trajectory and index -1. -/
theorem generateRecommendationsForShot_invalid_index_witness :
    ((-1 : ℤ) < 0 ∨ ((segmentShots [] none).length : ℤ) ≤ -1) ∧
    generateRecommendationsForShot ⟨0, 0, "", fun _ _ => "", ""⟩ [] (-1) none = [] :=
  ⟨Or.inl (by norm_num),
   generateRecommendationsForShot_invalid_index ⟨0, 0, "", fun _ _ => "", ""⟩ [] (-1)
     none (Or.inl (by norm_num))⟩

/-- The clamp-then-round pipeline of the score lands in [0,100]. -/
theorem clampRound_mem (s : ℚ) :
    0 ≤ ((jsRound (min MAX_SCORE (max MIN_SCORE s)) : ℤ) : ℚ) ∧
    ((jsRound (min MAX_SCORE (max MIN_SCORE s)) : ℤ) : ℚ) ≤ 100 := by
  have h0 : (0 : ℚ) ≤ min MAX_SCORE (max MIN_SCORE s) := by
    refine le_min (by norm_num [MAX_SCORE]) ?_
    calc (0 : ℚ) ≤ MIN_SCORE := by norm_num [MIN_SCORE]
    _ ≤ max MIN_SCORE s := le_max_left _ _
  have h100 : min MAX_SCORE (max MIN_SCORE s) ≤ 100 := by
    calc min MAX_SCORE (max MIN_SCORE s) ≤ MAX_SCORE := min_le_left _ _
    _ = 100 := by norm_num [MAX_SCORE]
  constructor
  · have : (0 : ℤ) ≤ jsRound (min MAX_SCORE (max MIN_SCORE s)) := by
      refine Int.le_floor.mpr ?_
      push_cast
      linarith
    exact_mod_cast this
  · have hub : jsRound (min MAX_SCORE (max MIN_SCORE s)) ≤ ⌊(201 / 2 : ℚ)⌋ :=
      Int.floor_le_floor (by linarith)
    have hl : (⌊(201 / 2 : ℚ)⌋ : ℤ) = 100 := Int.floor_eq_iff.mpr (by norm_num)
    rw [hl] at hub
    exact_mod_cast hub

/-- The clamp of the confidence lands in [1/2, 1]. -/
theorem clampConf_mem (c : ℚ) :
    1/2 ≤ min 1 (max (1/2) c) ∧ min 1 (max (1/2) c) ≤ 1 :=
  ⟨le_min (by norm_num) (le_max_left _ _), min_le_left _ _⟩

/-- C4.  For every candidate, features, rally state and weights, the
scored recommendation has score in [0,100] and confidence in [0.5,1]. -/
theorem scoreRecommendation_bounds (rec : ShotRecommendation)
    (features : ShotFeatures) (rallyState : RallyState) (weights : ScoringWeights) :
    0 ≤ (scoreRecommendation rec features rallyState weights).score ∧
    (scoreRecommendation rec features rallyState weights).score ≤ 100 ∧
    1/2 ≤ (scoreRecommendation rec features rallyState weights).confidence ∧
    (scoreRecommendation rec features rallyState weights).confidence ≤ 1 :=
  ⟨(clampRound_mem _).1, (clampRound_mem _).2,
   (clampConf_mem _).1, (clampConf_mem _).2⟩

/-- C6 counterexample.  With open-court zones `[0]` and target zone 4, the
target is not open but IS adjacent to the open zone 0 per the specified
zone-adjacency relation (the center zone is adjacent to all zones,
diagonals included) — yet `calculateOpenCourtScore` returns 0.1, not the
0.4 the claim requires: the code tests `|targetZone - openZone| ∈ {1,3}`,
not the adjacency table. -/
theorem calculateOpenCourtScore_adjacency_cex :
    calculateOpenCourtScore 4
      { phase := RallyPhase.neutral, initiative := Initiative.unknown,
        pressure := 1/2, openCourtZones := [0], timestamp := 0 } = 1/10 ∧
    isAdjacentZone 4 0 = true ∧
    (4 : ℤ) ∉ ([0] : List ℤ) := by
  refine ⟨?_, by decide, by decide⟩
  norm_num [calculateOpenCourtScore]

/-- C6 (amended).  `calculateOpenCourtScore` returns at least 0.8 for an
open target (exactly 1 when the target is additionally a corner zone),
0.4 when the target is not open but its numeric zone index differs from
some open zone's index by exactly 1 or 3, and 0.1 otherwise. -/
theorem calculateOpenCourtScore_cases (targetZone : ℤ) (rallyState : RallyState) :
    (targetZone ∈ rallyState.openCourtZones →
      4/5 ≤ calculateOpenCourtScore targetZone rallyState ∧
      (targetZone ∈ ([0, 2, 6, 8] : List ℤ) →
        calculateOpenCourtScore targetZone rallyState = 1)) ∧
    (targetZone ∉ rallyState.openCourtZones →
      (∃ o ∈ rallyState.openCourtZones,
        (targetZone - o).natAbs = 1 ∨ (targetZone - o).natAbs = 3) →
      calculateOpenCourtScore targetZone rallyState = 2/5) ∧
    (targetZone ∉ rallyState.openCourtZones →
      (∀ o ∈ rallyState.openCourtZones,
        (targetZone - o).natAbs ≠ 1 ∧ (targetZone - o).natAbs ≠ 3) →
      calculateOpenCourtScore targetZone rallyState = 1/10) := by
  refine ⟨fun hmem => ?_, fun hnot hadj => ?_, fun hnot hnadj => ?_⟩
  · unfold calculateOpenCourtScore
    rw [if_pos hmem]
    constructor
    · rcases em (targetZone ∈ ([0, 2, 6, 8] : List ℤ)) with hc | hc
      · rw [if_pos hc]; norm_num
      · rw [if_neg hc]; norm_num
    · intro hc
      rw [if_pos hc]; norm_num
  · unfold calculateOpenCourtScore
    rw [if_neg hnot, if_pos ?_]
    rw [List.any_eq_true]
    obtain ⟨o, ho, hcase⟩ := hadj
    exact ⟨o, ho, by simpa using hcase⟩
  · unfold calculateOpenCourtScore
    rw [if_neg hnot, if_neg ?_]
    rw [List.any_eq_true]
    rintro ⟨o, ho, hcase⟩
    obtain ⟨h1, h3⟩ := hnadj o ho
    rcases of_decide_eq_true hcase with h | h
    · exact h1 h
    · exact h3 h

/-- Witness for C6: target 4 with open-court zones `[3]` is not open,
differs from the open zone 3 by 1, and scores 0.4. -/
theorem calculateOpenCourtScore_cases_witness :
    ((4 : ℤ) ∉ ([3] : List ℤ)) ∧
    calculateOpenCourtScore 4
      { phase := RallyPhase.neutral, initiative := Initiative.unknown,
        pressure := 1/2, openCourtZones := [3], timestamp := 0 } = 2/5 :=
  ⟨by decide,
   (calculateOpenCourtScore_cases 4
      { phase := RallyPhase.neutral, initiative := Initiative.unknown,
        pressure := 1/2, openCourtZones := [3], timestamp := 0 }).2.1
     (by decide) ⟨3, by decide, Or.inl (by decide)⟩⟩

/-- C7 counterexample.  From the mid-court contact zone 3 (depth third 1,
not the front third) in the attack phase, `getViableShotTypes` still
offers the net shot, contradicting "net, push and lift appear only from
the front depth third". -/
theorem getViableShotTypes_net_mid_cex :
    ShotType.net ∈ getViableShotTypes RallyPhase.attack 3 ∧
    Int.fdiv (3 : ℤ) 3 = 1 := by
  constructor
  · decide
  · decide

/-- C7 (amended).  For contact zones 0..8, `getViableShotTypes` respects
the depth filter of the code: smash only from the back third, clear only
from the mid or back third, net and push only from the front or mid
third, and lift only from the front or back third. -/
theorem getViableShotTypes_depth_filter (phase : RallyPhase) (contactZone : ℤ)
    (h0 : 0 ≤ contactZone) (h8 : contactZone ≤ 8) :
    ∀ t ∈ getViableShotTypes phase contactZone,
      ((t = ShotType.smash ∨ t = ShotType.clear) →
        Int.fdiv contactZone 3 = 1 ∨ Int.fdiv contactZone 3 = 2) ∧
      ((t = ShotType.net ∨ t = ShotType.push) →
        Int.fdiv contactZone 3 = 0 ∨ Int.fdiv contactZone 3 = 1) ∧
      (t = ShotType.lift →
        Int.fdiv contactZone 3 = 0 ∨ Int.fdiv contactZone 3 = 2) := by
  interval_cases contactZone <;> cases phase <;> decide

/-- Witness for C7: the smash offered from the back-court zone 6 in the
attack phase indeed has its contact zone in the mid or back depth third. -/
theorem getViableShotTypes_depth_filter_witness :
    (ShotType.smash ∈ getViableShotTypes RallyPhase.attack 6) ∧
    (Int.fdiv (6 : ℤ) 3 = 1 ∨ Int.fdiv (6 : ℤ) 3 = 2) :=
  ⟨by decide,
   (getViableShotTypes_depth_filter RallyPhase.attack 6 (by norm_num) (by norm_num)
      ShotType.smash (by decide)).1 (Or.inl rfl)⟩

/-- C8 counterexample.  The generated path has 6 points — the two
endpoints and exactly FOUR interior points (the loop runs i = 1..4 of
`numPoints = 5`), not the five interior points the claim states. -/
theorem generateShotPath_length_cex :
    (generateShotPath (1/2, 3/10) 7 ShotType.clear).length = 6 := rfl

/-- C8 (amended).  The path starts at the contact point (height 0.5), ends
at the target zone's center (height 0.2), has exactly four interior
points, and the interior heights follow the parabola
`z = 0.3 + (heightFactor*3)*4*t*(1-t)` at t = i/5 for i = 1..4, with the
peak scaled by the per-shot-type height factor. -/
theorem generateShotPath_shape (contactPoint : ℚ × ℚ) (targetZone : ℤ)
    (shotType : ShotType) :
    (generateShotPath contactPoint targetZone shotType).length = 6 ∧
    (generateShotPath contactPoint targetZone shotType).head? =
      some { x := contactPoint.1, y := contactPoint.2, z := 1/2 } ∧
    (generateShotPath contactPoint targetZone shotType).getLast? =
      some { x := (zoneToPosition targetZone).1, y := (zoneToPosition targetZone).2,
             z := 1/5 } ∧
    (((generateShotPath contactPoint targetZone shotType).drop 1).take 4).map
        (fun p => p.z) =
      [3/10 + (SHOT_HEIGHT_PROXY shotType * 3) * 4 * (1/5) * (1 - 1/5),
       3/10 + (SHOT_HEIGHT_PROXY shotType * 3) * 4 * (2/5) * (1 - 2/5),
       3/10 + (SHOT_HEIGHT_PROXY shotType * 3) * 4 * (3/5) * (1 - 3/5),
       3/10 + (SHOT_HEIGHT_PROXY shotType * 3) * 4 * (4/5) * (1 - 4/5)] := by
  refine ⟨rfl, rfl, rfl, ?_⟩
  simp only [generateShotPath, List.range']
  norm_num

/-- The base angle-exposure values are nonnegative. -/
theorem ANGLE_RISK_BY_ZONE_nonneg (zone : ℤ) : 0 ≤ ANGLE_RISK_BY_ZONE zone := by
  unfold ANGLE_RISK_BY_ZONE
  split_ifs <;> norm_num

/-- The JavaScript rounding is monotone. -/
theorem jsRound_mono {a b : ℚ} (h : a ≤ b) : jsRound a ≤ jsRound b :=
  Int.floor_le_floor (by linarith)

/-- Evaluation of `assessShotRisk` at clear, lift and smash in the
defense phase. -/
theorem assessShotRisk_eval_defense (st : RallyState)
    (h : st.phase = RallyPhase.defense) :
    assessShotRisk ShotType.clear st =
      min 1 (max 0 (3/10 * (1 + st.pressure * (1/2)) * 1)) ∧
    assessShotRisk ShotType.lift st =
      min 1 (max 0 (3/10 * (1 + st.pressure * (1/2)) * 1)) ∧
    assessShotRisk ShotType.smash st =
      min 1 (max 0 (4/5 * (1 + st.pressure * (1/2)) * (13/10))) := by
  unfold assessShotRisk
  rw [h]
  exact ⟨rfl, rfl, rfl⟩

/-- Under the defense phase, a clear or lift carries no more risk than a
smash (the smash is at least as risky before clamping, and the clamp is
monotone). -/
theorem assessShotRisk_reset_le_smash (st : RallyState) (t : ShotType)
    (hphase : st.phase = RallyPhase.defense) (hp : 4/5 ≤ st.pressure)
    (ht : t = ShotType.clear ∨ t = ShotType.lift) :
    assessShotRisk t st ≤ assessShotRisk ShotType.smash st := by
  have hpm : (0 : ℚ) ≤ 1 + st.pressure * (1/2) := by linarith
  obtain ⟨e1, e2, e3⟩ := assessShotRisk_eval_defense st hphase
  have hcore : 3/10 * (1 + st.pressure * (1/2)) * 1 ≤
      4/5 * (1 + st.pressure * (1/2)) * (13/10) := by nlinarith
  rcases ht with h | h <;> subst h
  · rw [e1, e3]
    exact min_le_min le_rfl (max_le_max le_rfl hcore)
  · rw [e2, e3]
    exact min_le_min le_rfl (max_le_max le_rfl hcore)

/-- Evaluation of `calculateAngleExposure` at a smash: neither shot-type
adjustment applies, so the multiplier is 1. -/
theorem calculateAngleExposure_eval_smash (zone : ℤ) :
    calculateAngleExposure zone ShotType.smash =
      min 1 (max 0 (ANGLE_RISK_BY_ZONE zone * 1)) := by
  unfold calculateAngleExposure
  rw [if_neg, if_neg]
  · rintro ⟨h, -⟩
    exact ShotType.noConfusion h
  · rintro ⟨h, -⟩
    rcases h with h | h <;> exact ShotType.noConfusion h

/-- A clear or lift to a zone exposes no more counter-attack angle than a
smash to the same zone. -/
theorem calculateAngleExposure_reset_le_smash (zone : ℤ) (t : ShotType)
    (ht : t = ShotType.clear ∨ t = ShotType.lift) :
    calculateAngleExposure zone t ≤ calculateAngleExposure zone ShotType.smash := by
  have hbase := ANGLE_RISK_BY_ZONE_nonneg zone
  rw [calculateAngleExposure_eval_smash]
  rcases ht with h | h <;> subst h
  · unfold calculateAngleExposure
    rw [if_neg ?hc1]
    case hc1 =>
      rintro ⟨h, -⟩
      rcases h with h | h <;> exact ShotType.noConfusion h
    rcases em (zone = 6 ∨ zone = 8) with hz68 | hz68
    · rw [if_pos ⟨rfl, hz68⟩]
      refine min_le_min le_rfl (max_le_max le_rfl ?_)
      nlinarith
    · rw [if_neg (fun hc => hz68 hc.2)]
  · unfold calculateAngleExposure
    rw [if_neg ?hl1, if_neg ?hl2]
    case hl1 =>
      rintro ⟨h, -⟩
      rcases h with h | h <;> exact ShotType.noConfusion h
    case hl2 =>
      rintro ⟨h, -⟩
      exact ShotType.noConfusion h

/-- C5.  In the defense phase under pressure at least 0.8, a clear or lift
candidate scores at least as high as a smash candidate to the same target
zone (default weights, as used by the generator). -/
theorem defense_reset_scores_geq_smash (r1 r2 : ShotRecommendation)
    (features : ShotFeatures) (st : RallyState)
    (hphase : st.phase = RallyPhase.defense) (hp : 4/5 ≤ st.pressure)
    (ht1 : r1.shotType = ShotType.clear ∨ r1.shotType = ShotType.lift)
    (ht2 : r2.shotType = ShotType.smash)
    (hz : r1.targetZone = r2.targetZone) :
    (scoreRecommendation r2 features st DEFAULT_SCORING_WEIGHTS).score ≤
    (scoreRecommendation r1 features st DEFAULT_SCORING_WEIGHTS).score := by
  have hpa : PRESSURE_THRESHOLDS.attack < st.pressure := by
    have h35 : PRESSURE_THRESHOLDS.attack = 3/5 := rfl
    rw [h35]; linarith
  have hrisk : assessShotRisk r1.shotType st ≤ assessShotRisk r2.shotType st := by
    rw [ht2]
    exact assessShotRisk_reset_le_smash st r1.shotType hphase hp ht1
  have hangle : calculateAngleExposure r2.targetZone r1.shotType ≤
      calculateAngleExposure r2.targetZone r2.shotType := by
    rw [ht2]
    exact calculateAngleExposure_reset_le_smash r2.targetZone r1.shotType ht1
  simp only [scoreRecommendation, DEFAULT_SCORING_WEIGHTS, hz, if_pos hpa]
  refine Int.cast_le.mpr (jsRound_mono ?_)
  refine min_le_min le_rfl (max_le_max le_rfl ?_)
  linarith

/-- A concrete defense state with pressure 0.9, for the C5 witness. -/
def witnessDefenseState : RallyState :=
  { phase := RallyPhase.defense, initiative := Initiative.them,
    pressure := 9/10, openCourtZones := [0, 2, 6, 8], timestamp := 0 }

/-- Concrete features, for the C5 witness. -/
def witnessFeatures : ShotFeatures :=
  { contactZone := 4, landingZone := 7, shuttleSpeedProxy := 1/2,
    shuttleHeightProxy := 3/5, opponentMovementDistance := 2/5,
    opponentDirectionChange := 0, recoveryQuality := 3/10,
    rallyState := witnessDefenseState }

/-- Witness for C5: at pressure 0.9 in the defense phase, the clear to
zone 7 outscores (or ties) the smash to zone 7. -/
theorem defense_reset_scores_geq_smash_witness :
    ((4/5 : ℚ) ≤ (9/10 : ℚ)) ∧
    (scoreRecommendation
        ⟨"", ShotType.smash, 7, [], 0, [], 3/4⟩ witnessFeatures
        witnessDefenseState DEFAULT_SCORING_WEIGHTS).score ≤
    (scoreRecommendation
        ⟨"", ShotType.clear, 7, [], 0, [], 3/4⟩ witnessFeatures
        witnessDefenseState DEFAULT_SCORING_WEIGHTS).score :=
  ⟨by norm_num,
   defense_reset_scores_geq_smash
     ⟨"", ShotType.clear, 7, [], 0, [], 3/4⟩
     ⟨"", ShotType.smash, 7, [], 0, [], 3/4⟩
     witnessFeatures witnessDefenseState rfl
     (by norm_num [witnessDefenseState]) (Or.inl rfl) rfl rfl⟩

/-- Filtering a list by a predicate and by its negation partitions its
length. -/
theorem length_filter_add_length_filter_not {α : Type} (p : α → Bool) (l : List α) :
    (l.filter p).length + (l.filter (fun a => !(p a))).length = l.length := by
  induction l with
  | nil => rfl
  | cons a l ih =>
      by_cases h : p a <;> simp [List.filter_cons, h] <;> omega

/-- Every phase repertoire survives every depth filter: the viable shot
list is never empty. -/
theorem getViableShotTypes_ne_nil (phase : RallyPhase) (contactZone : ℤ) :
    getViableShotTypes phase contactZone ≠ [] := by
  unfold getViableShotTypes
  simp only []
  split_ifs <;> cases phase <;> decide

/-- The candidate target-zone list always has at least five entries: the
open zones plus the remaining grid zones always cover the grid. -/
theorem candidateTargetZones_five_le (rallyState : RallyState) :
    5 ≤ (candidateTargetZones rallyState).length := by
  unfold candidateTargetZones
  rw [List.length_append]
  set op := rallyState.openCourtZones with hop
  rcases le_or_lt 5 op.length with h5 | h5
  · omega
  · have hpart := length_filter_add_length_filter_not
      (fun z => op.contains z) allZones
    have hsub : (allZones.filter (fun z => op.contains z)) ⊆ op := by
      intro z hz
      have := (List.mem_filter.mp hz).2
      exact List.mem_of_elem_eq_true this
    have hnd : (allZones.filter (fun z => op.contains z)).Nodup :=
      (by decide : allZones.Nodup).filter _
    have hle : (allZones.filter (fun z => op.contains z)).length ≤ op.length :=
      (List.subperm_of_subset hnd hsub).length_le
    have h9 : allZones.length = 9 := rfl
    omega

/-- The candidate set has exactly five candidates per viable shot type. -/
theorem candidateRecommendations_length (env : IdEnv) (contactPoint : ℚ × ℚ)
    (features : ShotFeatures) (rallyState : RallyState) :
    (candidateRecommendations env contactPoint features rallyState).length =
      (getViableShotTypes rallyState.phase features.contactZone).length * 5 := by
  unfold candidateRecommendations
  rw [List.length_flatMap]
  have hz : ((candidateTargetZones rallyState).take 5).length = 5 := by
    rw [List.length_take]
    exact min_eq_left (candidateTargetZones_five_le rallyState)
  have hmap : ∀ t : ShotType,
      (List.length ∘ fun shotType =>
        ((candidateTargetZones rallyState).take 5).map (fun targetZone =>
          buildCandidateRecommendation env shotType targetZone contactPoint)) t = 5 := by
    intro t
    simp only [Function.comp_apply, List.length_map]
    exact hz
  rw [List.map_congr_left (fun t _ => hmap t)]
  have : (getViableShotTypes rallyState.phase features.contactZone).map
      (fun _ => (5 : ℕ)) =
      List.replicate (getViableShotTypes rallyState.phase features.contactZone).length 5 :=
    List.map_const _ 5
  rw [this, List.sum_replicate, smul_eq_mul]

/-- Ranking preserves the number of candidates. -/
theorem scoreAndRankRecommendations_length (l : List ShotRecommendation)
    (features : ShotFeatures) (rallyState : RallyState) (weights : ScoringWeights) :
    (scoreAndRankRecommendations l features rallyState weights).length = l.length := by
  unfold scoreAndRankRecommendations
  rw [List.length_insertionSort, List.length_map]

/-- Ranking sorts the candidates by score, non-increasing. -/
theorem scoreAndRankRecommendations_sorted (l : List ShotRecommendation)
    (features : ShotFeatures) (rallyState : RallyState) (weights : ScoringWeights) :
    List.Pairwise recGE (scoreAndRankRecommendations l features rallyState weights) :=
  List.sorted_insertionSort recGE _

/-- C1.  `generateRecommendations` always returns exactly 3
recommendations, sorted by score non-increasing (adjacent pairs satisfy
`recs[i].score >= recs[i+1].score`). -/
theorem generateRecommendations_top3 (env : IdEnv) (shot : ShotSegment)
    (features : ShotFeatures) (rallyState : RallyState) :
    (generateRecommendations env shot features rallyState).length = 3 ∧
    List.Chain' (fun a b => b.score ≤ a.score)
      (generateRecommendations env shot features rallyState) := by
  constructor
  · unfold generateRecommendations
    rw [List.length_take, scoreAndRankRecommendations_length,
      candidateRecommendations_length]
    have hvl : 1 ≤ (getViableShotTypes rallyState.phase features.contactZone).length :=
      List.length_pos.mpr (getViableShotTypes_ne_nil _ _)
    omega
  · unfold generateRecommendations
    refine List.Pairwise.chain' ?_
    refine List.Pairwise.sublist (List.take_sublist 3 _) ?_
    exact scoreAndRankRecommendations_sorted _ _ _ _

/-- Erasing the id commutes with scoring: the score, rationale and
confidence read only the shot type and target zone, never the id. -/
theorem eraseRecId_scoreRecommendation (r : ShotRecommendation)
    (features : ShotFeatures) (rallyState : RallyState) (weights : ScoringWeights) :
    eraseRecId (scoreRecommendation r features rallyState weights) =
      scoreRecommendation (eraseRecId r) features rallyState weights := by
  cases r
  rfl

/-- Erasing the ids commutes with ranking: the sort compares scores only,
which erasure preserves. -/
theorem map_eraseRecId_scoreAndRank (l : List ShotRecommendation)
    (features : ShotFeatures) (rallyState : RallyState) (weights : ScoringWeights) :
    (scoreAndRankRecommendations l features rallyState weights).map eraseRecId =
      scoreAndRankRecommendations (l.map eraseRecId) features rallyState weights := by
  unfold scoreAndRankRecommendations
  simp only []
  rw [List.map_insertionSort recGE recGE eraseRecId _ (fun a _ b _ => Iff.rfl)]
  congr 1
  rw [List.map_map, List.map_map]
  exact List.map_congr_left (fun r _ => eraseRecId_scoreRecommendation r _ _ _)

/-- Up to its id, a candidate does not depend on the impure environment. -/
theorem eraseRecId_buildCandidate (e e' : IdEnv) (t : ShotType) (z : ℤ)
    (cp : ℚ × ℚ) :
    eraseRecId (buildCandidateRecommendation e t z cp) =
      eraseRecId (buildCandidateRecommendation e' t z cp) := rfl

/-- Up to the recommendation ids, `generateRecommendations` does not
depend on the impure environment. -/
theorem map_eraseRecId_generateRecommendations (e e' : IdEnv) (shot : ShotSegment)
    (features : ShotFeatures) (rallyState : RallyState) :
    (generateRecommendations e shot features rallyState).map eraseRecId =
      (generateRecommendations e' shot features rallyState).map eraseRecId := by
  unfold generateRecommendations
  simp only []
  rw [List.map_take, List.map_take]
  rw [map_eraseRecId_scoreAndRank, map_eraseRecId_scoreAndRank]
  congr 2
  unfold candidateRecommendations
  rw [List.map_flatMap, List.map_flatMap]
  refine congrArg _ (funext fun t => ?_)
  rw [List.map_map, List.map_map]
  exact List.map_congr_left (fun z _ => eraseRecId_buildCandidate e e' t z _)

/-- Up to the recommendation ids, the per-shot analysis does not depend on
the impure environment. -/
theorem map_erasePerShot_generatePerShotAnalysis (e e' : IdEnv) :
    ∀ (shots : List ShotSegment) (states : List RallyState)
      (fs : List ShotFeatures),
      (generatePerShotAnalysis e shots states fs).map erasePerShot =
        (generatePerShotAnalysis e' shots states fs).map erasePerShot := by
  intro shots
  induction shots with
  | nil => intro states fs; rfl
  | cons s ss ih =>
      intro states fs
      cases states with
      | nil => rfl
      | cons st sts =>
          cases fs with
          | nil => rfl
          | cons f fs' =>
              simp only [generatePerShotAnalysis, List.map_cons]
              rw [ih sts fs']
              refine congrArg₂ _ ?_ rfl
              unfold erasePerShot
              congr 1
              exact map_eraseRecId_generateRecommendations e e' s f st

/-- The per-shot analysis has the same length for any two environments. -/
theorem generatePerShotAnalysis_length_eq (e e' : IdEnv)
    (shots : List ShotSegment) (states : List RallyState)
    (fs : List ShotFeatures) :
    (generatePerShotAnalysis e shots states fs).length =
      (generatePerShotAnalysis e' shots states fs).length := by
  have h := map_erasePerShot_generatePerShotAnalysis e e' shots states fs
  have h1 := congrArg List.length h
  simpa using h1

/-- C9.  Two calls to `analyzeRally` with identical arguments agree on
every field except the opaque ids (`rallyId`, recommendation ids) and the
wall-clock metadata (`processedAt`, `processingTimeMs`): erasing exactly
those fields makes the results equal, for any two impure environments. -/
theorem analyzeRally_deterministic (e1 e2 : IdEnv) (sessionId : String)
    (trajectory : List TrajectoryPoint) (poseTimestamps : Option (List ℚ))
    (opponentPositions : Option (List PositionSample))
    (playerPositions : Option (List PositionSample)) :
    eraseVolatile (analyzeRally e1 sessionId trajectory poseTimestamps
      opponentPositions playerPositions) =
    eraseVolatile (analyzeRally e2 sessionId trajectory poseTimestamps
      opponentPositions playerPositions) := by
  unfold analyzeRally
  by_cases h : (segmentShots trajectory poseTimestamps).isEmpty = true
  · rw [if_pos h, if_pos h]
    rfl
  · rw [if_neg h, if_neg h]
    unfold eraseVolatile
    simp only []
    congr 1
    · exact map_erasePerShot_generatePerShotAnalysis e1 e2 _ _ _
    · unfold buildRallySummary
      congr 1
      exact generatePerShotAnalysis_length_eq e1 e2 _ _ _

end RallyCoach
